import Mathlib

/-!
# Verification of `vatsim_utils` (Rust) against its specification

Shallow embedding of the library's core in Lean 4:

* `src/errors.rs` — the `VatsimUtilError` enum.
* `src/live_api.rs` — endpoint discovery (`Vatsim::get_endpoint_urls`),
  the live snapshot fetch (`Vatsim::get_v3_data`) and the rating-times
  fetch (`Vatsim::get_ratings_times`).
* `src/rest_api.rs` — `get_connections` and `get_ratings_times`.
* `src/distance.rs` — `AIRPORTS_MAP` construction and the `haversine`
  great-circle distance.
* `src/models.rs` — the data records the above traffic decodes into.

Modelling conventions:

* The HTTP transport is a black box.  One round trip is modelled by a value
  of `HttpOutcome β`: either the request itself failed (`reqwest::Error`,
  which the crate converts into `VatsimUtilError::ReqwestError`), or a
  response arrived with a numeric status code and an opaque body of type `β`.
* JSON decoding (`response.json::<T>()`) is a black box `β → Option T`.
  In the source a JSON failure inside `reqwest` surfaces as
  `reqwest::Error` and hence as `VatsimUtilError::ReqwestError`
  (the `FailedJsonParse` variant is reserved for `serde_json::Error`, which
  none of the modelled functions produce); the embedding maps a `none`
  decode to `.ReqwestError` accordingly.
* Rust machine integers (`i64`, `u64`, `u16`, `i8`, …) carry no arithmetic
  in any modelled function, so they are embedded as `Int`/`Nat`; `f64`
  payload fields of decoded records are embedded as `ℚ` (decoded JSON
  numbers), and the floating-point distance computation of `distance.rs`
  is embedded over `ℝ`.
* `rand`'s `SliceRandom::choose` is modelled by `choose`, taking the random
  draw as an explicit natural-number oracle: `choose l k` is `none` exactly
  on the empty list and otherwise selects index `k % l.length`.
-/

namespace VatsimUtils

/-! ## `src/errors.rs` — `VatsimUtilError` -/

/-- The error enum of `src/errors.rs`.  `InvalidStatusCode` carries the
HTTP status code; `ReqwestError` wraps any `reqwest::Error` (transport or
in-transport JSON decode failure); `FailedJsonParse` wraps
`serde_json::Error`; `NoV3Url` / `NoTransceiversUrl` are the discovery
exhaustion errors documented as returnable from `Vatsim::new`. -/
inductive VatsimUtilError where
  | InvalidStatusCode (code : Nat)
  | ReqwestError
  | FailedJsonParse
  | NoV3Url
  | NoTransceiversUrl
deriving DecidableEq, Repr

/-! ## Transport model -/

/-- Outcome of one HTTP round trip: either the underlying call failed
(`reqwest::Error`) or a response with a status code and a body arrived. -/
inductive HttpOutcome (β : Type) where
  | failed
  | response (status : Nat) (body : β)

/-- `reqwest::StatusCode::is_success`: the 2xx range. -/
def isSuccess (status : Nat) : Bool :=
  200 ≤ status && status < 300

/-! ## `src/models.rs` — decoded records -/

/-- `models.rs` `StatusData`: the parallel candidate-URL lists of the
discovery response. -/
structure StatusData where
  v3 : List String
  transceivers : List String
  servers : List String
  servers_sweatbox : List String
  servers_all : List String
deriving DecidableEq, Repr

/-- `models.rs` `Status`: the discovery response. -/
structure Status where
  data : StatusData
  user : List String
  metar : List String
deriving DecidableEq, Repr

/-- `models.rs` `FlightPlan`. -/
structure FlightPlan where
  flight_rules : String
  aircraft : String
  aircraft_faa : String
  aircraft_short : String
  departure : String
  arrival : String
  alternate : String
  cruise_tas : String
  altitude : String
  deptime : String
  enroute_time : String
  fuel_time : String
  remarks : String
  route : String
  revision_id : Int
  assigned_transponder : String
deriving DecidableEq, Repr

/-- `models.rs` `Pilot`. -/
structure Pilot where
  cid : Int
  name : String
  callsign : String
  server : String
  pilot_rating : Int
  latitude : ℚ
  longitude : ℚ
  altitude : Int
  groundspeed : Int
  transponder : String
  heading : Int
  qnh_i_hg : ℚ
  qnh_mb : Int
  flight_plan : Option FlightPlan
  logon_time : String
  last_updated : String
deriving DecidableEq, Repr

/-- `models.rs` `Controller`. -/
structure Controller where
  cid : Int
  name : String
  callsign : String
  frequency : String
  facility : Int
  rating : Int
  server : String
  visual_range : Int
  text_atis : Option (List String)
  last_updated : String
  logon_time : String
deriving DecidableEq, Repr

/-- `models.rs` `GeneralData`. -/
structure GeneralData where
  version : Int
  reload : Int
  update : String
  update_timestamp : String
  connected_clients : Int
  unique_users : Int
deriving DecidableEq, Repr

/-- `models.rs` `Atis`. -/
structure Atis where
  cid : Nat
  name : String
  callsign : String
  frequency : String
  facility : Nat
  rating : Nat
  server : String
  visual_range : Nat
  atis_code : String
  text_atis : List String
  last_updated : String
  logon_time : String
deriving DecidableEq, Repr

/-- `models.rs` `Server`. -/
structure Server where
  ident : String
  hostname_or_ip : String
  location : String
  name : String
  clients_connection_allowed : Nat
  client_connections_allowed : Bool
  is_sweatbox : Bool
deriving DecidableEq, Repr

/-- `models.rs` `ReferenceItem`. -/
structure ReferenceItem where
  id : Int
  short : String
  long : String
deriving DecidableEq, Repr

/-- `models.rs` `ReferenceNameItem`. -/
structure ReferenceNameItem where
  id : Int
  short_name : String
  long_name : String
deriving DecidableEq, Repr

/-- `models.rs` `V3ResponseData`: one live network snapshot. -/
structure V3ResponseData where
  general : GeneralData
  pilots : List Pilot
  controllers : List Controller
  atis : List Atis
  servers : List Server
  facilities : List ReferenceItem
  ratings : List ReferenceItem
  pilot_ratings : List ReferenceNameItem
deriving DecidableEq, Repr

/-- `models.rs` `RatingsTimeData` (all fields are JSON numbers). -/
structure RatingsTimeData where
  id : ℚ
  atc : ℚ
  pilot : ℚ
  s1 : ℚ
  s2 : ℚ
  s3 : ℚ
  c1 : ℚ
  c2 : ℚ
  c3 : ℚ
  i1 : ℚ
  i2 : ℚ
  i3 : ℚ
  sup : ℚ
  adm : ℚ
deriving DecidableEq, Repr

/-- Modelled from the spec: `live_api.rs` imports `models::RatingsData`,
whose declaration is absent from the provided `models.rs` (a historical
revision of the data model).  The spec treats the repeated schema
declarations as "one canonical, versioned schema" and `fetchRatingTimes`
as returning the rating-times record, so `RatingsData` is modelled as
that same canonical record. -/
abbrev RatingsData := RatingsTimeData

/-- `models.rs` `ConnectionEntry`.  The Rust field `end` is a Lean
keyword and is embedded as `finish`. -/
structure ConnectionEntry where
  id : Nat
  vatsim_id : String
  connection_type : Nat
  rating : Int
  callsign : String
  start : String
  finish : Option String
  server : String
deriving DecidableEq, Repr

/-- `models.rs` `PaginatedResponse<T>`: one page of a paginated REST
response; `next`/`previous` are optional page URLs. -/
structure PaginatedResponse (T : Type) where
  count : Nat
  next : Option String
  previous : Option String
  results : List T
deriving DecidableEq, Repr

/-! ## `src/live_api.rs` -/

/-- `rand::seq::SliceRandom::choose`: `none` exactly on an empty slice,
otherwise some element; the random draw is the oracle `k`, selecting
index `k % l.length`. -/
def choose {α : Type} (l : List α) (k : Nat) : Option α :=
  if l.isEmpty then none else l.get? (k % l.length)

/-- Outcome of `Vatsim::get_endpoint_urls`, which can return a value,
return an error, or panic (Rust `expect`). -/
inductive ConstructionOutcome (α : Type) where
  | ok (a : α)
  | err (e : VatsimUtilError)
  | panicked (msg : String)
deriving DecidableEq, Repr

/-- `live_api.rs` `Vatsim::get_endpoint_urls` (lines 81–102): fetch the
status endpoint, fail on non-2xx or decode failure, then select one `v3`
URL and one `transceivers` URL at random — via `.expect(..)`, which
panics (rather than returning `NoV3Url` / `NoTransceiversUrl`) when a
candidate list is empty.  `resp` is the transport's answer for
`STATUS_URL`, `decode` the JSON decoder, `k1`/`k2` the random draws. -/
def get_endpoint_urls {β : Type} (resp : HttpOutcome β)
    (decode : β → Option Status) (k1 k2 : Nat) :
    ConstructionOutcome (String × String) :=
  match resp with
  | .failed => .err .ReqwestError
  | .response status body =>
    if !(isSuccess status) then
      .err (.InvalidStatusCode status)
    else
      match decode body with
      | none => .err .ReqwestError
      | some st =>
        match choose st.data.v3 k1 with
        | none => .panicked "No VATSIM V3 API URLs returned"
        | some v3_url =>
          match choose st.data.transceivers k2 with
          | none => .panicked "No VATSIM transceivers API URLs returned"
          | some transceivers_url => .ok (v3_url, transceivers_url)

/-- Lexicographic `≤` on character lists: Rust compares `String`s
byte-lexicographically on their UTF-8 encoding, which coincides with
code-point-lexicographic comparison of the character sequences. -/
def charsLe : List Char → List Char → Bool
  | [], _ => true
  | _ :: _, [] => false
  | x :: xs, y :: ys =>
    if x < y then true
    else if y < x then false
    else charsLe xs ys

/-- The string ordering used by `a.callsign.partial_cmp(&b.callsign)`
(total on `String`, so the `unwrap` never panics). -/
def strLe (a b : String) : Bool := charsLe a.data b.data

/-- Rust's `slice::sort_by` is a stable sort; it is modelled by a stable
insertion sort on the comparator's ordering: insert into the sorted
tail, before the first element the inserted one compares `le` to. -/
def orderedInsertBy {α : Type} (le : α → α → Bool) (a : α) :
    List α → List α
  | [] => [a]
  | b :: l => if le a b then a :: b :: l else b :: orderedInsertBy le a l

/-- Stable sort by the Bool comparator `le`. -/
def sortBy {α : Type} (le : α → α → Bool) : List α → List α
  | [] => []
  | b :: l => orderedInsertBy le b (sortBy le l)

/-- Sort records by a `String` key, stably, in the string ordering. -/
def sortByKey {α : Type} (key : α → String) (l : List α) : List α :=
  sortBy (fun a b => strLe (key a) (key b)) l

/-- `live_api.rs` `Vatsim::get_v3_data` (lines 130–144): fetch the
resolved V3 URL, fail on non-2xx, decode, then stably sort the pilots
and the controllers by callsign before returning.  `resp` is the
transport's answer for the stored `v3_url`. -/
def get_v3_data {β : Type} (resp : HttpOutcome β)
    (decode : β → Option V3ResponseData) :
    Except VatsimUtilError V3ResponseData :=
  match resp with
  | .failed => .error .ReqwestError
  | .response status body =>
    if !(isSuccess status) then
      .error (.InvalidStatusCode status)
    else
      match decode body with
      | none => .error .ReqwestError
      | some data =>
        .ok { data with
                pilots := sortByKey Pilot.callsign data.pilots,
                controllers := sortByKey Controller.callsign data.controllers }

namespace LiveApi

/-- `live_api.rs` `Vatsim::get_ratings_times` (lines 197–213): one GET to
the fixed historical-ratings URL for `cid`, non-2xx fails with
`InvalidStatusCode`, then decode. -/
def get_ratings_times {β : Type} (cid : Nat)
    (transport : String → HttpOutcome β) (decode : β → Option RatingsData) :
    Except VatsimUtilError RatingsData :=
  match transport
      ("https://api.vatsim.net/api/ratings/" ++ toString cid ++ "/rating_times") with
  | .failed => .error .ReqwestError
  | .response status body =>
    if !(isSuccess status) then
      .error (.InvalidStatusCode status)
    else
      match decode body with
      | none => .error .ReqwestError
      | some data => .ok data

end LiveApi

/-! ## `src/rest_api.rs` -/

namespace RestApi

/-- `rest_api.rs` `get_ratings_times` (lines 96–111): identical request
URL, status classification and decode as the live-client method. -/
def get_ratings_times {β : Type} (cid : Nat)
    (transport : String → HttpOutcome β)
    (decode : β → Option RatingsTimeData) :
    Except VatsimUtilError RatingsTimeData :=
  match transport
      ("https://api.vatsim.net/api/ratings/" ++ toString cid ++ "/rating_times") with
  | .failed => .error .ReqwestError
  | .response status body =>
    if !(isSuccess status) then
      .error (.InvalidStatusCode status)
    else
      match decode body with
      | none => .error .ReqwestError
      | some data => .ok data

/-- The URL `get_connections` builds: the fixed connections endpoint for
`cid`, with `?page=N` appended only when a page is given. -/
def connectionsUrl (cid : Nat) (page : Option Nat) : String :=
  "https://api.vatsim.net/api/ratings/" ++ toString cid ++ "/connections" ++
    match page with
    | some p => "?page=" ++ toString p
    | none => ""

/-- `rest_api.rs` `get_connections` (lines 134–150): build the URL, issue
exactly one GET, fail on non-2xx, decode one page and return it as
decoded — `next` is never followed.  The second component is the list of
URLs requested during the call (the call's network trace). -/
def get_connections {β : Type} (cid : Nat) (page : Option Nat)
    (transport : String → HttpOutcome β)
    (decode : β → Option (PaginatedResponse ConnectionEntry)) :
    Except VatsimUtilError (PaginatedResponse ConnectionEntry) × List String :=
  let url := connectionsUrl cid page
  (match transport url with
   | .failed => .error .ReqwestError
   | .response status body =>
     if !(isSuccess status) then
       .error (.InvalidStatusCode status)
     else
       match decode body with
       | none => .error .ReqwestError
       | some data => .ok data,
   [url])

end RestApi

/-! ## `src/distance.rs` -/

/-- `distance.rs` `Airport`: one row of the bundled airport dataset.
The dataset's decimal coordinates are embedded as `ℚ`. -/
structure Airport where
  identifier : String
  latitude : ℚ
  longitude : ℚ
deriving DecidableEq, Repr

/-- `distance.rs` `AIRPORTS_MAP` (lines 74–89): fold the dataset rows in
file order into a map, `HashMap::insert` overwriting any earlier row with
the same identifier.  The bundled CSV artifact is opaque, so the
construction is parameterised by the parsed row list `rows`; the map is
embedded as its lookup function. -/
def airportsMap (rows : List Airport) : String → Option Airport :=
  rows.foldl (fun m a => fun k => if k = a.identifier then some a else m k)
    (fun _ => none)

/-- The mathematical `atan2` (the real-number behaviour of Rust's
`f64::atan2(y, x)` on finite non-signed-zero inputs, case by quadrant). -/
noncomputable def atan2 (y x : ℝ) : ℝ :=
  if 0 < x then Real.arctan (y / x)
  else if x < 0 ∧ 0 ≤ y then Real.arctan (y / x) + Real.pi
  else if x < 0 ∧ y < 0 then Real.arctan (y / x) - Real.pi
  else if x = 0 ∧ 0 < y then Real.pi / 2
  else if x = 0 ∧ y < 0 then -(Real.pi / 2)
  else 0

/-- Rust's `f64::round`: round to the nearest integer, halfway cases away
from zero. -/
noncomputable def rustRound (x : ℝ) : ℝ :=
  if x < 0 then -((Int.floor (-x + 1 / 2) : ℤ) : ℝ)
  else ((Int.floor (x + 1 / 2) : ℤ) : ℝ)

/-- `distance.rs` `haversine` (lines 119–132): great-circle distance on
the mean-Earth-radius sphere (6 371 000 m), degrees converted to radians,
the metre result scaled by 0.00054 and rounded to whole statute miles.
The `f64` computation is embedded over `ℝ` (so rounding, overflow and NaN
are erased); `haversineFp` below is the same computation over a
range-aware idealization of `f64` that keeps overflow to infinity and
NaN propagation. -/
noncomputable def haversine (lat1 lon1 lat2 lon2 : ℝ) : ℝ :=
  let r : ℝ := 6371e3
  let phi1 := lat1 * Real.pi / 180
  let phi2 := lat2 * Real.pi / 180
  let dphi := (lat2 - lat1) * Real.pi / 180
  let dlam := (lon2 - lon1) * Real.pi / 180
  let a := Real.sin (dphi / 2) * Real.sin (dphi / 2) +
    Real.cos phi1 * Real.cos phi2 * Real.sin (dlam / 2) * Real.sin (dlam / 2)
  let c := 2 * atan2 (Real.sqrt a) (Real.sqrt (1 - a))
  let d := r * c
  rustRound (d * 0.00054)

/-! ### A range-aware idealization of `f64`

The real-valued `haversine` above erases IEEE 754 behaviour.  The model
below keeps the part of it that is observable at extreme inputs: finite
values overflow to `±inf` past the largest finite double, and invalid
operations produce a propagating `nan`.  Finite values still carry exact
reals (per-operation rounding error is erased, signed zeros and underflow
are ignored, and the `PI` constant is idealized as exact `π`), so this
model refines `haversine` on inputs whose intermediates stay in range
while exhibiting the overflow path. -/

/-- An `f64` value: a finite value (carrying its exact real), an
infinity, or NaN. -/
inductive F64 where
  | finite (val : ℝ)
  | inf
  | neginf
  | nan

/-- The largest finite `f64`, `(2^53 - 1) * 2^971` ≈ 1.79769e308. -/
noncomputable def MAXF : ℝ := (2 ^ 53 - 1) * 2 ^ 971

/-- A finite-valued result overflows to `±inf` past the largest finite
double. -/
noncomputable def clamp (r : ℝ) : F64 :=
  if MAXF < r then .inf
  else if r < -MAXF then .neginf
  else .finite r

/-- `f64` addition. -/
noncomputable def fpAdd : F64 → F64 → F64
  | .nan, _ => .nan
  | _, .nan => .nan
  | .finite a, .finite b => clamp (a + b)
  | .inf, .neginf => .nan
  | .neginf, .inf => .nan
  | .inf, _ => .inf
  | _, .inf => .inf
  | .neginf, _ => .neginf
  | _, .neginf => .neginf

/-- `f64` subtraction. -/
noncomputable def fpSub : F64 → F64 → F64
  | .nan, _ => .nan
  | _, .nan => .nan
  | .finite a, .finite b => clamp (a - b)
  | .inf, .inf => .nan
  | .neginf, .neginf => .nan
  | .inf, _ => .inf
  | .neginf, _ => .neginf
  | _, .inf => .neginf
  | _, .neginf => .inf

/-- `f64` multiplication. -/
noncomputable def fpMul : F64 → F64 → F64
  | .nan, _ => .nan
  | _, .nan => .nan
  | .finite a, .finite b => clamp (a * b)
  | .inf, .inf => .inf
  | .inf, .neginf => .neginf
  | .neginf, .inf => .neginf
  | .neginf, .neginf => .inf
  | .inf, .finite b => if 0 < b then .inf else if b < 0 then .neginf else .nan
  | .finite a, .inf => if 0 < a then .inf else if a < 0 then .neginf else .nan
  | .neginf, .finite b => if 0 < b then .neginf else if b < 0 then .inf else .nan
  | .finite a, .neginf => if 0 < a then .neginf else if a < 0 then .inf else .nan

/-- `f64` division (signed zeros ignored: division by the unsigned zero
follows the `+0` rule). -/
noncomputable def fpDiv : F64 → F64 → F64
  | .nan, _ => .nan
  | _, .nan => .nan
  | .finite a, .finite b =>
      if b = 0 then (if a = 0 then .nan else if 0 < a then .inf else .neginf)
      else clamp (a / b)
  | .inf, .finite b => if 0 ≤ b then .inf else .neginf
  | .neginf, .finite b => if 0 ≤ b then .neginf else .inf
  | .finite _, .inf => .finite 0
  | .finite _, .neginf => .finite 0
  | _, _ => .nan

/-- `f64` sine: NaN on non-finite arguments (IEEE `sin(±inf) = NaN`). -/
noncomputable def fpSin : F64 → F64
  | .finite v => .finite (Real.sin v)
  | _ => .nan

/-- `f64` cosine: NaN on non-finite arguments (IEEE `cos(±inf) = NaN`). -/
noncomputable def fpCos : F64 → F64
  | .finite v => .finite (Real.cos v)
  | _ => .nan

/-- `f64` square root. -/
noncomputable def fpSqrt : F64 → F64
  | .nan => .nan
  | .finite v => if v < 0 then .nan else .finite (Real.sqrt v)
  | .inf => .inf
  | .neginf => .nan

/-- `f64` `atan2(y, x)` with the IEEE special cases (NaN only when an
argument is NaN). -/
noncomputable def fpAtan2 : F64 → F64 → F64
  | .nan, _ => .nan
  | _, .nan => .nan
  | .finite yv, .finite xv => .finite (atan2 yv xv)
  | .inf, .inf => .finite (Real.pi / 4)
  | .inf, .neginf => .finite (3 * Real.pi / 4)
  | .neginf, .inf => .finite (-(Real.pi / 4))
  | .neginf, .neginf => .finite (-(3 * Real.pi / 4))
  | .inf, .finite _ => .finite (Real.pi / 2)
  | .neginf, .finite _ => .finite (-(Real.pi / 2))
  | .finite _, .inf => .finite 0
  | .finite yv, .neginf => .finite (if yv < 0 then -Real.pi else Real.pi)

/-- `f64` `round`: the identity on non-finite values. -/
noncomputable def fpRound : F64 → F64
  | .finite v => .finite (rustRound v)
  | .inf => .inf
  | .neginf => .neginf
  | .nan => .nan

/-- `distance.rs` `haversine` over the range-aware `f64` model: the same
expression tree as `haversine`, operation by operation. -/
noncomputable def haversineFp (lat1 lon1 lat2 lon2 : F64) : F64 :=
  let r : F64 := .finite 6371e3
  let pi : F64 := .finite Real.pi
  let phi1 := fpDiv (fpMul lat1 pi) (.finite 180)
  let phi2 := fpDiv (fpMul lat2 pi) (.finite 180)
  let dphi := fpDiv (fpMul (fpSub lat2 lat1) pi) (.finite 180)
  let dlam := fpDiv (fpMul (fpSub lon2 lon1) pi) (.finite 180)
  let a := fpAdd
    (fpMul (fpSin (fpDiv dphi (.finite 2))) (fpSin (fpDiv dphi (.finite 2))))
    (fpMul (fpMul (fpMul (fpCos phi1) (fpCos phi2))
        (fpSin (fpDiv dlam (.finite 2))))
      (fpSin (fpDiv dlam (.finite 2))))
  let c := fpMul (.finite 2) (fpAtan2 (fpSqrt a) (fpSqrt (fpSub (.finite 1) a)))
  let d := fpMul r c
  fpRound (fpMul d (.finite 0.00054))

/-! ## Concrete fixtures (used by witness theorems) -/

/-- A pilot record with the given `cid` and `callsign`, all other fields
defaulted. -/
def mkPilot (cid : Int) (callsign : String) : Pilot :=
  { cid := cid, name := "", callsign := callsign, server := "",
    pilot_rating := 0, latitude := 0, longitude := 0, altitude := 0,
    groundspeed := 0, transponder := "", heading := 0, qnh_i_hg := 0,
    qnh_mb := 0, flight_plan := none, logon_time := "", last_updated := "" }

/-- A controller record with the given `cid` and `callsign`, all other
fields defaulted. -/
def mkController (cid : Int) (callsign : String) : Controller :=
  { cid := cid, name := "", callsign := callsign, frequency := "",
    facility := 0, rating := 0, server := "", visual_range := 0,
    text_atis := none, last_updated := "", logon_time := "" }

/-- A discovery response with one `v3` candidate and an empty
`transceivers` candidate list. -/
def sampleStatusNoTransceivers : Status :=
  { data := { v3 := ["https://data.vatsim.example/v3"], transceivers := [],
              servers := [], servers_sweatbox := [], servers_all := [] },
    user := [], metar := [] }

/-- An unsorted upstream V3 payload: pilots `DAL1`(cid 3), `AAL2`(cid 1),
`DAL1`(cid 2) and controllers `SAN_TWR`(cid 5), `LAX_TWR`(cid 4). -/
def sampleV3 : V3ResponseData :=
  { general := { version := 3, reload := 1, update := "u",
                 update_timestamp := "t", connected_clients := 3,
                 unique_users := 3 },
    pilots := [mkPilot 3 "DAL1", mkPilot 1 "AAL2", mkPilot 2 "DAL1"],
    controllers := [mkController 5 "SAN_TWR", mkController 4 "LAX_TWR"],
    atis := [], servers := [],
    facilities := [{ id := 0, short := "OBS", long := "Observer" }],
    ratings := [], pilot_ratings := [] }

/-- `sampleV3` after the sorting applied by `get_v3_data`: callsigns
ascending, the two `DAL1` pilots keeping their upstream order. -/
def sampleV3Sorted : V3ResponseData :=
  { sampleV3 with
      pilots := [mkPilot 1 "AAL2", mkPilot 3 "DAL1", mkPilot 2 "DAL1"],
      controllers := [mkController 4 "LAX_TWR", mkController 5 "SAN_TWR"] }

/-- A connections page whose `next` link is non-null. -/
def samplePage : PaginatedResponse ConnectionEntry :=
  { count := 37,
    next := some "https://api.vatsim.net/api/ratings/1234567/connections?page=2",
    previous := none,
    results := [{ id := 9, vatsim_id := "1234567", connection_type := 1,
                  rating := 3, callsign := "SAN_TWR", start := "s",
                  finish := none, server := "USA-E" }] }

/-- A three-row airport dataset with a duplicated identifier. -/
def sampleRows : List Airport :=
  [{ identifier := "KSAN", latitude := 1, longitude := 2 },
   { identifier := "KLAX", latitude := 3, longitude := 4 },
   { identifier := "KSAN", latitude := 5, longitude := 6 }]

/-! ## Helper lemmas about the stable keyed sort -/

/-- `charsLe` decides the lexicographic order on `List Char`. -/
theorem charsLe_iff : ∀ (xs ys : List Char),
    charsLe xs ys = true ↔ ¬ List.Lex (· < ·) ys xs := by
  intro xs
  induction xs with
  | nil =>
    intro ys
    cases ys with
    | nil => simp [charsLe]
    | cons y ys => simp [charsLe]
  | cons x xs ih =>
    intro ys
    cases ys with
    | nil =>
      simp only [charsLe, Bool.false_eq_true, false_iff, not_not]
      exact List.Lex.nil
    | cons y ys =>
      by_cases h1 : x < y
      · simp only [charsLe, if_pos h1, true_iff]
        intro hlt
        cases hlt with
        | cons h => exact lt_irrefl x h1
        | rel h => exact lt_asymm h1 h
      · by_cases h2 : y < x
        · simp only [charsLe, if_neg h1, if_pos h2, Bool.false_eq_true,
            false_iff, not_not]
          exact List.Lex.rel h2
        · have hxy : x = y := le_antisymm (not_lt.mp h2) (not_lt.mp h1)
          subst hxy
          simp only [charsLe, if_neg h1, if_neg h2]
          rw [ih ys]
          constructor
          · intro h hlt
            cases hlt with
            | cons h3 => exact h h3
            | rel h3 => exact h1 h3
          · intro h h3
            exact h (List.Lex.cons h3)

/-- `strLe` decides the string ordering `≤`. -/
theorem strLe_iff (a b : String) : strLe a b = true ↔ a ≤ b := by
  have h := charsLe_iff a.data b.data
  constructor
  · intro hc
    show ¬ b < a
    intro hlt
    exact (h.mp hc) (String.lt_iff_toList_lt.mp hlt)
  · intro hle
    refine h.mpr (fun hlt => ?_)
    exact hle (String.lt_iff_toList_lt.mpr hlt)

theorem strLe_refl (a : String) : strLe a a = true :=
  (strLe_iff a a).mpr le_rfl

theorem orderedInsertBy_eq {α : Type} (le : α → α → Bool) (a : α) :
    ∀ l : List α, orderedInsertBy le a l
      = List.orderedInsert (fun x y => le x y = true) a l := by
  intro l
  induction l with
  | nil => rfl
  | cons b tl ih =>
    simp only [orderedInsertBy, List.orderedInsert]
    by_cases h : le a b = true
    · rw [if_pos h, if_pos h]
    · rw [if_neg h, if_neg h, ih]

theorem sortBy_eq {α : Type} (le : α → α → Bool) :
    ∀ l : List α, sortBy le l
      = List.insertionSort (fun x y => le x y = true) l := by
  intro l
  induction l with
  | nil => rfl
  | cons b tl ih =>
    simp only [sortBy, List.insertionSort, ih, orderedInsertBy_eq]

theorem sortByKey_pairwise {α : Type} (key : α → String) (l : List α) :
    (sortByKey key l).Pairwise (fun a b => key a ≤ key b) := by
  have hp : (sortByKey key l).Pairwise
      (fun a b => strLe (key a) (key b) = true) := by
    haveI ht : IsTotal α (fun a b : α => strLe (key a) (key b) = true) :=
      ⟨fun a b => by
        rcases le_total (key a) (key b) with h | h
        · exact Or.inl ((strLe_iff _ _).mpr h)
        · exact Or.inr ((strLe_iff _ _).mpr h)⟩
    haveI htr : IsTrans α (fun a b : α => strLe (key a) (key b) = true) :=
      ⟨fun a b c h1 h2 => (strLe_iff _ _).mpr
        (le_trans ((strLe_iff _ _).mp h1) ((strLe_iff _ _).mp h2))⟩
    unfold sortByKey
    rw [sortBy_eq]
    exact List.sorted_insertionSort _ l
  exact hp.imp (fun h => (strLe_iff _ _).mp h)

theorem sortByKey_perm {α : Type} (key : α → String) (l : List α) :
    List.Perm (sortByKey key l) l := by
  unfold sortByKey
  rw [sortBy_eq]
  exact List.perm_insertionSort _ l

theorem pairwise_filter_keyEq {α : Type} (key : α → String) (c : String) :
    ∀ l : List α,
      (l.filter (fun x => key x == c)).Pairwise
        (fun a b => strLe (key a) (key b) = true) := by
  intro l
  induction l with
  | nil => simp
  | cons a tl ih =>
    by_cases h : (key a == c) = true
    · rw [List.filter_cons, if_pos (by simpa using h)]
      refine List.Pairwise.cons ?_ ih
      intro b hb
      have hb2 : (key b == c) = true := (List.mem_filter.mp hb).2
      have h1 : key a = c := by simpa using h
      have h2 : key b = c := by simpa using hb2
      rw [h1, h2]
      exact strLe_refl c
    · rw [List.filter_cons, if_neg (by simpa using h)]
      exact ih

/-- Stability of the keyed sort: the subsequence of records with any given
key is returned exactly as it occurred in the input. -/
theorem sortByKey_filter_eq {α : Type} (key : α → String) (l : List α)
    (c : String) :
    (sortByKey key l).filter (fun x => key x == c)
      = l.filter (fun x => key x == c) := by
  have h1 := pairwise_filter_keyEq key c l
  have h2 : List.Sublist (l.filter (fun x => key x == c)) l :=
    List.filter_sublist l
  have h3 : List.Sublist (l.filter (fun x => key x == c)) (sortByKey key l) := by
    unfold sortByKey
    rw [sortBy_eq]
    exact List.sublist_insertionSort h1 h2
  have hidem : (l.filter (fun x => key x == c)).filter (fun x => key x == c)
      = l.filter (fun x => key x == c) :=
    List.filter_eq_self.mpr (fun a ha => (List.mem_filter.mp ha).2)
  have h4 : List.Sublist (l.filter (fun x => key x == c))
      ((sortByKey key l).filter (fun x => key x == c)) := by
    have h5 := h3.filter (fun x => key x == c)
    rwa [hidem] at h5
  have h6 : ((sortByKey key l).filter (fun x => key x == c)).length
      = (l.filter (fun x => key x == c)).length :=
    ((sortByKey_perm key l).filter _).length_eq
  exact (h4.eq_of_length h6.symm).symm

/-- Inversion for a successful `get_v3_data` call: the response was 2xx,
the body decoded, and the result is the decoded snapshot with both
sequences sorted. -/
theorem get_v3_data_ok_inv {β : Type} {resp : HttpOutcome β}
    {decode : β → Option V3ResponseData} {out : V3ResponseData}
    (h : get_v3_data resp decode = Except.ok out) :
    ∃ (status : Nat) (body : β) (data : V3ResponseData),
      resp = HttpOutcome.response status body ∧ isSuccess status = true ∧
      decode body = some data ∧
      out = { data with
                pilots := sortByKey Pilot.callsign data.pilots,
                controllers := sortByKey Controller.callsign data.controllers } := by
  cases resp with
  | failed => simp [get_v3_data] at h
  | response status body =>
    cases hs : isSuccess status with
    | false => simp [get_v3_data, hs] at h
    | true =>
      cases hd : decode body with
      | none => simp [get_v3_data, hs, hd] at h
      | some data =>
        refine ⟨status, body, data, rfl, hs, hd, ?_⟩
        simp [get_v3_data, hs, hd] at h
        exact h.symm

/-! ## Helper lemmas about the airport map -/

theorem airportsMap_append_singleton (rows : List Airport) (a : Airport)
    (k : String) :
    airportsMap (rows ++ [a]) k
      = if k = a.identifier then some a else airportsMap rows k := by
  simp [airportsMap, List.foldl_append]

/-- The built map looks up the last dataset row bearing the key. -/
theorem airportsMap_eq_find_last (rows : List Airport) (id : String) :
    airportsMap rows id
      = rows.reverse.find? (fun a => a.identifier == id) := by
  induction rows using List.reverseRecOn with
  | nil => rfl
  | append_singleton rs a ih =>
    rw [airportsMap_append_singleton, List.reverse_append]
    simp only [List.reverse_cons, List.reverse_nil, List.nil_append,
      List.singleton_append]
    by_cases h : (a.identifier == id) = true
    · have h2 : id = a.identifier := by
        have := beq_iff_eq.mp h
        exact this.symm
      simp [List.find?, h, h2]
    · have h2 : ¬ id = a.identifier := by
        intro hcontra
        exact h (beq_iff_eq.mpr hcontra.symm)
      simp only [List.find?]
      rw [if_neg h2]
      cases hb : (a.identifier == id) with
      | false => exact ih
      | true => exact absurd hb h

/-! ## Claim theorems -/

/-- C1: the spec says that when the discovery response decodes but a
required candidate list (in particular `transceivers`) is empty, the
client construction returns `NoUrlAvailable` for that feed type
(`NoV3Url` / `NoTransceiversUrl`).  The code instead panics through
`.expect(..)`: on a decoded discovery response with one `v3` URL and an
empty `transceivers` list, `get_endpoint_urls` ends in the panic
"No VATSIM transceivers API URLs returned" for every random draw — it
never constructs the documented error variants. -/
theorem claim1_empty_transceivers_panics :
    ∀ k1 k2 : Nat,
      get_endpoint_urls (HttpOutcome.response 200 ())
          (fun _ : Unit => some sampleStatusNoTransceivers) k1 k2
        = ConstructionOutcome.panicked "No VATSIM transceivers API URLs returned" := by
  intro k1 k2
  simp only [get_endpoint_urls, choose, sampleStatusNoTransceivers,
    List.length_cons, List.length_nil, Nat.zero_add, Nat.mod_one]
  rfl

/-- C2: every snapshot returned by `get_v3_data` has its pilots and its
controllers sorted non-decreasingly by callsign under string ordering,
and the sort is stable: the records bearing any fixed callsign occur in
their original upstream order. -/
theorem claim2_snapshot_sorted_stable :
    ∀ (β : Type) (resp : HttpOutcome β) (decode : β → Option V3ResponseData)
      (out : V3ResponseData),
      get_v3_data resp decode = Except.ok out →
      out.pilots.Pairwise (fun a b => a.callsign ≤ b.callsign) ∧
      out.controllers.Pairwise (fun a b => a.callsign ≤ b.callsign) ∧
      ∃ data : V3ResponseData,
        (∃ (status : Nat) (body : β),
          resp = HttpOutcome.response status body ∧ decode body = some data) ∧
        (∀ c : String,
          out.pilots.filter (fun p => p.callsign == c)
            = data.pilots.filter (fun p => p.callsign == c)) ∧
        (∀ c : String,
          out.controllers.filter (fun x => x.callsign == c)
            = data.controllers.filter (fun x => x.callsign == c)) := by
  intro β resp decode out h
  obtain ⟨status, body, data, hr, hs, hd, hout⟩ := get_v3_data_ok_inv h
  subst hout
  refine ⟨sortByKey_pairwise Pilot.callsign data.pilots,
          sortByKey_pairwise Controller.callsign data.controllers,
          data, ⟨status, body, hr, hd⟩, ?_, ?_⟩
  · intro c; exact sortByKey_filter_eq Pilot.callsign data.pilots c
  · intro c; exact sortByKey_filter_eq Controller.callsign data.controllers c

/-- C2 witness: on a concrete unsorted payload the returned snapshot is
sorted with the two equal-callsign pilots in upstream order. -/
theorem claim2_witness :
    sampleV3Sorted.pilots.Pairwise (fun a b => a.callsign ≤ b.callsign) ∧
    sampleV3Sorted.controllers.Pairwise (fun a b => a.callsign ≤ b.callsign) ∧
    ∃ data : V3ResponseData,
      (∃ (status : Nat) (body : Unit),
        (HttpOutcome.response 200 () : HttpOutcome Unit)
          = HttpOutcome.response status body ∧
        (fun _ : Unit => some sampleV3) body = some data) ∧
      (∀ c : String,
        sampleV3Sorted.pilots.filter (fun p => p.callsign == c)
          = data.pilots.filter (fun p => p.callsign == c)) ∧
      (∀ c : String,
        sampleV3Sorted.controllers.filter (fun x => x.callsign == c)
          = data.controllers.filter (fun x => x.callsign == c)) :=
  claim2_snapshot_sorted_stable Unit (HttpOutcome.response 200 ())
    (fun _ => some sampleV3) sampleV3Sorted rfl

/-- C3: in every modelled fetch operation a status code outside 200–299
yields `InvalidStatusCode` with exactly that code and the body is never
consulted, while a status inside 200–299 proceeds to decode the body. -/
theorem claim3_status_code_classification :
    (∀ (β : Type) (status : Nat) (body : β)
        (decode : β → Option V3ResponseData),
      ¬(200 ≤ status ∧ status ≤ 299) →
        get_v3_data (HttpOutcome.response status body) decode
          = Except.error (VatsimUtilError.InvalidStatusCode status)) ∧
    (∀ (β : Type) (status : Nat) (body : β)
        (decode : β → Option V3ResponseData),
      200 ≤ status ∧ status ≤ 299 →
        get_v3_data (HttpOutcome.response status body) decode
          = match decode body with
            | none => Except.error VatsimUtilError.ReqwestError
            | some data => Except.ok { data with
                pilots := sortByKey Pilot.callsign data.pilots,
                controllers := sortByKey Controller.callsign data.controllers }) ∧
    (∀ (β : Type) (cid : Nat) (page : Option Nat)
        (transport : String → HttpOutcome β)
        (decode : β → Option (PaginatedResponse ConnectionEntry))
        (status : Nat) (body : β),
      transport (RestApi.connectionsUrl cid page)
          = HttpOutcome.response status body →
      ¬(200 ≤ status ∧ status ≤ 299) →
        (RestApi.get_connections cid page transport decode).1
          = Except.error (VatsimUtilError.InvalidStatusCode status)) ∧
    (∀ (β : Type) (cid : Nat) (page : Option Nat)
        (transport : String → HttpOutcome β)
        (decode : β → Option (PaginatedResponse ConnectionEntry))
        (status : Nat) (body : β),
      transport (RestApi.connectionsUrl cid page)
          = HttpOutcome.response status body →
      200 ≤ status ∧ status ≤ 299 →
        (RestApi.get_connections cid page transport decode).1
          = match decode body with
            | none => Except.error VatsimUtilError.ReqwestError
            | some data => Except.ok data) := by
  refine ⟨?_, ?_, ?_, ?_⟩
  · intro β status body decode hrange
    have hs : isSuccess status = false := by
      simp only [isSuccess, Bool.and_eq_false_iff, decide_eq_false_iff_not]
      omega
    simp [get_v3_data, hs]
  · intro β status body decode hrange
    have hs : isSuccess status = true := by
      simp only [isSuccess, Bool.and_eq_true, decide_eq_true_eq]
      omega
    cases hd : decode body with
    | none => simp [get_v3_data, hs, hd]
    | some data => simp [get_v3_data, hs, hd]
  · intro β cid page transport decode status body htr hrange
    have hs : isSuccess status = false := by
      simp only [isSuccess, Bool.and_eq_false_iff, decide_eq_false_iff_not]
      omega
    simp [RestApi.get_connections, htr, hs]
  · intro β cid page transport decode status body htr hrange
    have hs : isSuccess status = true := by
      simp only [isSuccess, Bool.and_eq_true, decide_eq_true_eq]
      omega
    cases hd : decode body with
    | none => simp [RestApi.get_connections, htr, hs, hd]
    | some data => simp [RestApi.get_connections, htr, hs, hd]

/-- C3 witness: among the codes {200, 201, 301, 400, 404, 500} exactly
200 and 201 decode (returning the sorted payload) and the rest return
`InvalidStatusCode` with the exact code preserved. -/
theorem claim3_witness :
    get_v3_data (HttpOutcome.response 200 ()) (fun _ : Unit => some sampleV3)
      = Except.ok sampleV3Sorted ∧
    get_v3_data (HttpOutcome.response 201 ()) (fun _ : Unit => some sampleV3)
      = Except.ok sampleV3Sorted ∧
    get_v3_data (HttpOutcome.response 301 ()) (fun _ : Unit => some sampleV3)
      = Except.error (VatsimUtilError.InvalidStatusCode 301) ∧
    get_v3_data (HttpOutcome.response 400 ()) (fun _ : Unit => some sampleV3)
      = Except.error (VatsimUtilError.InvalidStatusCode 400) ∧
    get_v3_data (HttpOutcome.response 404 ()) (fun _ : Unit => some sampleV3)
      = Except.error (VatsimUtilError.InvalidStatusCode 404) ∧
    get_v3_data (HttpOutcome.response 500 ()) (fun _ : Unit => some sampleV3)
      = Except.error (VatsimUtilError.InvalidStatusCode 500) := by
  refine ⟨?_, ?_, ?_, ?_, ?_, ?_⟩
  · rw [claim3_status_code_classification.2.1 Unit 200 ()
      (fun _ => some sampleV3) (by omega)]
    rfl
  · rw [claim3_status_code_classification.2.1 Unit 201 ()
      (fun _ => some sampleV3) (by omega)]
    rfl
  · exact claim3_status_code_classification.1 Unit 301 ()
      (fun _ => some sampleV3) (by omega)
  · exact claim3_status_code_classification.1 Unit 400 ()
      (fun _ => some sampleV3) (by omega)
  · exact claim3_status_code_classification.1 Unit 404 ()
      (fun _ => some sampleV3) (by omega)
  · exact claim3_status_code_classification.1 Unit 500 ()
      (fun _ => some sampleV3) (by omega)

/-- C7: one `get_connections` call performs exactly one network round
trip — its request trace is the single built URL, whatever the decoded
page's `next` link holds — and a successful call returns the decoded
page unchanged (so `next` is surfaced as decoded, never followed). -/
theorem claim7_no_auto_pagination :
    ∀ (β : Type) (cid : Nat) (page : Option Nat)
      (transport : String → HttpOutcome β)
      (decode : β → Option (PaginatedResponse ConnectionEntry)),
      (RestApi.get_connections cid page transport decode).2
        = [RestApi.connectionsUrl cid page] ∧
      ∀ out, (RestApi.get_connections cid page transport decode).1
          = Except.ok out →
        ∃ (status : Nat) (body : β),
          transport (RestApi.connectionsUrl cid page)
            = HttpOutcome.response status body ∧
          decode body = some out := by
  intro β cid page transport decode
  refine ⟨rfl, ?_⟩
  intro out h
  cases htr : transport (RestApi.connectionsUrl cid page) with
  | failed => simp [RestApi.get_connections, htr] at h
  | response status body =>
    cases hs : isSuccess status with
    | false => simp [RestApi.get_connections, htr, hs] at h
    | true =>
      cases hd : decode body with
      | none => simp [RestApi.get_connections, htr, hs, hd] at h
      | some data =>
        have hde : data = out := by
          simpa [RestApi.get_connections, htr, hs, hd] using h
        exact ⟨status, body, rfl, hde ▸ hd⟩

/-- C7 witness: a call whose decoded page carries a non-null `next` link
still traces exactly one request and returns that page as decoded. -/
theorem claim7_witness :
    (RestApi.get_connections 1234567 none
        (fun _ : String => HttpOutcome.response 200 ())
        (fun _ : Unit => some samplePage)).2
      = [RestApi.connectionsUrl 1234567 none] ∧
    ∃ (status : Nat) (body : Unit),
      (fun _ : String => HttpOutcome.response 200 ())
          (RestApi.connectionsUrl 1234567 none)
        = HttpOutcome.response status body ∧
      (fun _ : Unit => some samplePage) body = some samplePage := by
  have h := claim7_no_auto_pagination Unit 1234567 none
    (fun _ => HttpOutcome.response 200 ()) (fun _ => some samplePage)
  exact ⟨h.1, h.2 samplePage rfl⟩

/-- C8: looking up the built airport map returns the record of the last
dataset row bearing the identifier — with that identifier as its key —
and `none` exactly for identifiers occurring in no row. -/
theorem claim8_airports_map_last_write_wins :
    ∀ (rows : List Airport) (id : String),
      airportsMap rows id
        = rows.reverse.find? (fun a => a.identifier == id) ∧
      (∀ a, airportsMap rows id = some a → a.identifier = id ∧ a ∈ rows) ∧
      (airportsMap rows id = none ↔ ∀ a ∈ rows, a.identifier ≠ id) := by
  intro rows id
  refine ⟨airportsMap_eq_find_last rows id, ?_, ?_⟩
  · intro a ha
    rw [airportsMap_eq_find_last] at ha
    have h1 := List.find?_some ha
    have h2 := List.mem_of_find?_eq_some ha
    exact ⟨beq_iff_eq.mp h1, List.mem_reverse.mp h2⟩
  · rw [airportsMap_eq_find_last, List.find?_eq_none]
    constructor
    · intro h a ha
      have := h a (List.mem_reverse.mpr ha)
      simpa using this
    · intro h a ha
      simpa using h a (List.mem_reverse.mp ha)

/-- C8 witness: on a dataset with a duplicated identifier the lookup
returns the last row's coordinates, and an absent identifier is
`none`. -/
theorem claim8_witness :
    airportsMap sampleRows "KSAN"
      = some { identifier := "KSAN", latitude := 5, longitude := 6 } ∧
    airportsMap sampleRows "KJFK" = none := by
  constructor
  · rw [(claim8_airports_map_last_write_wins sampleRows "KSAN").1]
    rfl
  · rw [(claim8_airports_map_last_write_wins sampleRows "KJFK").1]
    rfl

/-- C9: a successful `get_v3_data` call returns a snapshot whose pilots
and controllers are permutations of the decoded ones and whose other six
fields are exactly the decoded values. -/
theorem claim9_snapshot_frame :
    ∀ (β : Type) (resp : HttpOutcome β) (decode : β → Option V3ResponseData)
      (out : V3ResponseData),
      get_v3_data resp decode = Except.ok out →
      ∃ data : V3ResponseData,
        (∃ (status : Nat) (body : β),
          resp = HttpOutcome.response status body ∧ decode body = some data) ∧
        List.Perm out.pilots data.pilots ∧
        List.Perm out.controllers data.controllers ∧
        out.general = data.general ∧ out.atis = data.atis ∧
        out.servers = data.servers ∧ out.facilities = data.facilities ∧
        out.ratings = data.ratings ∧ out.pilot_ratings = data.pilot_ratings := by
  intro β resp decode out h
  obtain ⟨status, body, data, hr, hs, hd, hout⟩ := get_v3_data_ok_inv h
  subst hout
  exact ⟨data, ⟨status, body, hr, hd⟩,
    sortByKey_perm Pilot.callsign data.pilots,
    sortByKey_perm Controller.callsign data.controllers,
    rfl, rfl, rfl, rfl, rfl, rfl⟩

/-- C9 witness: on the concrete payload the returned snapshot is a
permutation of the decoded records with all other fields unchanged. -/
theorem claim9_witness :
    ∃ data : V3ResponseData,
      (∃ (status : Nat) (body : Unit),
        (HttpOutcome.response 200 () : HttpOutcome Unit)
          = HttpOutcome.response status body ∧
        (fun _ : Unit => some sampleV3) body = some data) ∧
      List.Perm sampleV3Sorted.pilots data.pilots ∧
      List.Perm sampleV3Sorted.controllers data.controllers ∧
      sampleV3Sorted.general = data.general ∧
      sampleV3Sorted.atis = data.atis ∧
      sampleV3Sorted.servers = data.servers ∧
      sampleV3Sorted.facilities = data.facilities ∧
      sampleV3Sorted.ratings = data.ratings ∧
      sampleV3Sorted.pilot_ratings = data.pilot_ratings :=
  claim9_snapshot_frame Unit (HttpOutcome.response 200 ())
    (fun _ => some sampleV3) sampleV3Sorted rfl

/-- Monotonicity of sine on `[0, 1]`. -/
theorem sin_le_sin_of {x y : ℝ} (hx0 : 0 ≤ x) (hy1 : y ≤ 1) (hxy : x ≤ y) :
    Real.sin x ≤ Real.sin y := by
  have h3 := Real.pi_gt_three
  exact Real.strictMonoOn_sin.monotoneOn
    ⟨by linarith, by linarith⟩ ⟨by linarith, by linarith⟩ hxy

/-- Taylor enclosure of sine over a rational enclosure of the argument. -/
theorem sin_bounds_of_enclosure (lo hi x : ℝ) (hlo0 : 0 ≤ lo) (hhi1 : hi ≤ 1)
    (hxlo : lo ≤ x) (hxhi : x ≤ hi) :
    lo - lo ^ 3 / 6 - lo ^ 4 * (5 / 96) ≤ Real.sin x ∧
    Real.sin x ≤ hi - hi ^ 3 / 6 + hi ^ 4 * (5 / 96) := by
  have hx0 : 0 ≤ x := le_trans hlo0 hxlo
  have hx1 : x ≤ 1 := le_trans hxhi hhi1
  have hhi0 : 0 ≤ hi := le_trans hx0 hxhi
  have hlo1 : lo ≤ 1 := le_trans hxlo hx1
  have hm1 : Real.sin lo ≤ Real.sin x := sin_le_sin_of hlo0 hx1 hxlo
  have hm2 : Real.sin x ≤ Real.sin hi := sin_le_sin_of hx0 hhi1 hxhi
  have hb1 := Real.sin_bound (show |lo| ≤ 1 by rwa [abs_of_nonneg hlo0])
  have hb2 := Real.sin_bound (show |hi| ≤ 1 by rwa [abs_of_nonneg hhi0])
  rw [abs_of_nonneg hlo0] at hb1
  rw [abs_of_nonneg hhi0] at hb2
  have h1 := abs_le.mp hb1
  have h2 := abs_le.mp hb2
  constructor
  · linarith [h1.1]
  · linarith [h2.2]

/-- Quadratic lower bound of cosine on `[0, 1]`. -/
theorem cos_poly_lb {q : ℝ} (h0 : 0 ≤ q) (h1 : q ≤ 1) :
    1 - q ^ 2 / 2 - q ^ 4 * (5 / 96) ≤ Real.cos q := by
  have hb := Real.cos_bound (show |q| ≤ 1 by rwa [abs_of_nonneg h0])
  rw [abs_of_nonneg h0] at hb
  have h2 := abs_le.mp hb
  linarith [h2.1]

/-- Half-angle identity in the product form used by `haversine`. -/
theorem cos_half_sq (t : ℝ) :
    Real.cos t = 1 - 2 * (Real.sin (t / 2) * Real.sin (t / 2)) := by
  have h3 := Real.cos_two_mul' (t / 2)
  have h4 := Real.sin_sq_add_cos_sq (t / 2)
  have h5 : 2 * (t / 2) = t := by ring
  rw [h5] at h3
  nlinarith [h3, h4]

/-- `arctan` is below the identity on positive reals. -/
theorem arctan_lt_self {s : ℝ} (h : 0 < s) : Real.arctan s < s := by
  rcases lt_or_le s (Real.pi / 2) with h2 | h2
  · have h3 := Real.lt_tan h h2
    have h4 := Real.arctan_strictMono h3
    rwa [Real.arctan_tan (by linarith [Real.pi_pos]) h2] at h4
  · exact lt_of_lt_of_le (Real.arctan_lt_pi_div_two s) h2

/-- `arctan` exceeds any angle whose tangent is below the argument. -/
theorem lt_arctan_of_tan_lt (u t : ℝ) (h1 : -(Real.pi / 2) < u)
    (h2 : u < Real.pi / 2) (h : Real.tan u < t) : u < Real.arctan t := by
  have h4 := Real.arctan_strictMono h
  rwa [Real.arctan_tan h1 h2] at h4

set_option maxHeartbeats 4000000 in
/-- C4: `haversine` follows the haversine formula on the 6 371 000 m
sphere with degree-to-radian conversion, scales the metre result by
0.00054 and rounds half-away-from-zero to whole statute miles; on the
San Diego-LAX reference coordinates it returns exactly 95.  Proved by
certified interval arithmetic over the real-valued model: the true value
lies in (94.54, 94.77), so it rounds to 95. -/
theorem claim4_haversine_value :
    haversine 32.7338 (-117.1933) 33.9416 (-118.4085) = 95 := by
  have hpl := Real.pi_gt_d6
  have hpu := Real.pi_lt_d6
  have sqb : ∀ s l u : ℝ, 0 ≤ l → l ≤ s → s ≤ u → l * l ≤ s * s ∧ s * s ≤ u * u := by
    intro s l u h1 h2 h3
    constructor
    · nlinarith
    · nlinarith
  have mulb : ∀ p q lp up lq uq : ℝ, 0 ≤ lp → 0 ≤ lq → lp ≤ p → p ≤ up →
      lq ≤ q → q ≤ uq → lp * lq ≤ p * q ∧ p * q ≤ up * uq := by
    intro p q lp up lq uq h1 h2 h3 h4 h5 h6
    constructor
    · nlinarith
    · nlinarith
  -- sine enclosures of the four half-angles
  have hs1 : (0.28142453 : ℝ) ≤ Real.sin (32.7338 * Real.pi / 180 / 2) ∧
      Real.sin (32.7338 * Real.pi / 180 / 2) ≤ 0.28211823 := by
    have he := sin_bounds_of_enclosure 0.28565623 0.28565633
      (32.7338 * Real.pi / 180 / 2) (by norm_num) (by norm_num)
      (by linarith) (by linarith)
    exact ⟨le_trans (by norm_num) he.1, le_trans he.2 (by norm_num)⟩
  have hs2 : (0.29146439 : ℝ) ≤ Real.sin (33.9416 * Real.pi / 180 / 2) ∧
      Real.sin (33.9416 * Real.pi / 180 / 2) ≤ 0.29226626 := by
    have he := sin_bounds_of_enclosure 0.29619627 0.29619637
      (33.9416 * Real.pi / 180 / 2) (by norm_num) (by norm_num)
      (by linarith) (by linarith)
    exact ⟨le_trans (by norm_num) he.1, le_trans he.2 (by norm_num)⟩
  have hsd : (0.01053984 : ℝ) ≤ Real.sin (1.2078 * Real.pi / 180 / 2) ∧
      Real.sin (1.2078 * Real.pi / 180 / 2) ≤ 0.01053986 := by
    have he := sin_bounds_of_enclosure 0.01054004 0.01054005
      (1.2078 * Real.pi / 180 / 2) (by norm_num) (by norm_num)
      (by linarith) (by linarith)
    exact ⟨le_trans (by norm_num) he.1, le_trans he.2 (by norm_num)⟩
  have hse : (0.01060441 : ℝ) ≤ Real.sin (1.2152 * Real.pi / 180 / 2) ∧
      Real.sin (1.2152 * Real.pi / 180 / 2) ≤ 0.01060444 := by
    have he := sin_bounds_of_enclosure 0.01060461 0.01060463
      (1.2152 * Real.pi / 180 / 2) (by norm_num) (by norm_num)
      (by linarith) (by linarith)
    exact ⟨le_trans (by norm_num) he.1, le_trans he.2 (by norm_num)⟩
  -- cosine enclosures via the half-angle identity
  have hc1 : (0.84081860 : ℝ) ≤ Real.cos (32.7338 * Real.pi / 180) ∧
      Real.cos (32.7338 * Real.pi / 180) ≤ 0.84160047 := by
    have hsq := sqb _ _ _ (by norm_num) hs1.1 hs1.2
    rw [cos_half_sq]
    constructor
    · linarith [hsq.2]
    · linarith [hsq.1]
  have hc2 : (0.82916086 : ℝ) ≤ Real.cos (33.9416 * Real.pi / 180) ∧
      Real.cos (33.9416 * Real.pi / 180) ≤ 0.83009702 := by
    have hsq := sqb _ _ _ (by norm_num) hs2.1 hs2.2
    rw [cos_half_sq]
    constructor
    · linarith [hsq.2]
    · linarith [hsq.1]
  have hP : (0.69717387 : ℝ)
        ≤ Real.cos (32.7338 * Real.pi / 180) * Real.cos (33.9416 * Real.pi / 180) ∧
      Real.cos (32.7338 * Real.pi / 180) * Real.cos (33.9416 * Real.pi / 180)
        ≤ 0.69861005 := by
    have hm := mulb _ _ _ _ _ _ (by norm_num) (by norm_num)
      hc1.1 hc1.2 hc2.1 hc2.2
    exact ⟨le_trans (by norm_num) hm.1, le_trans hm.2 (by norm_num)⟩
  -- normalize the goal
  simp only [haversine]
  rw [show (33.9416 : ℝ) - 32.7338 = 1.2078 by norm_num]
  rw [show (-118.4085 : ℝ) - -117.1933 = -1.2152 by norm_num]
  rw [show Real.sin ((-1.2152 : ℝ) * Real.pi / 180 / 2)
      = -Real.sin (1.2152 * Real.pi / 180 / 2) by
    rw [show ((-1.2152 : ℝ)) * Real.pi / 180 / 2
        = -(1.2152 * Real.pi / 180 / 2) by ring]
    exact Real.sin_neg _]
  simp only [mul_neg, neg_mul, neg_neg]
  set A := Real.sin (1.2078 * Real.pi / 180 / 2) * Real.sin (1.2078 * Real.pi / 180 / 2) +
    Real.cos (32.7338 * Real.pi / 180) * Real.cos (33.9416 * Real.pi / 180) *
      Real.sin (1.2152 * Real.pi / 180 / 2) * Real.sin (1.2152 * Real.pi / 180 / 2)
    with hAdef
  have hA : (0.00018948787 : ℝ) ≤ A ∧ A ≤ 0.00018965025 := by
    have hsd2 := sqb _ _ _ (by norm_num) hsd.1 hsd.2
    have hse2 := sqb _ _ _ (by norm_num) hse.1 hse.2
    have hterm := mulb _ _ _ _ _ _ (by norm_num) (by norm_num)
      hP.1 hP.2 hse2.1 hse2.2
    rw [hAdef]
    constructor
    · nlinarith [hsd2.1, hterm.1]
    · nlinarith [hsd2.2, hterm.2]
  have hsqA : (0.013765459 : ℝ) ≤ Real.sqrt A ∧ Real.sqrt A ≤ 0.013771358 := by
    constructor
    · rw [show (0.013765459 : ℝ) = Real.sqrt (0.013765459 ^ 2) from
        (Real.sqrt_sq (by norm_num)).symm]
      exact Real.sqrt_le_sqrt (by nlinarith [hA.1])
    · rw [show (0.013771358 : ℝ) = Real.sqrt (0.013771358 ^ 2) from
        (Real.sqrt_sq (by norm_num)).symm]
      exact Real.sqrt_le_sqrt (by nlinarith [hA.2])
  have hsq1A : (0.999905167 : ℝ) ≤ Real.sqrt (1 - A) ∧
      Real.sqrt (1 - A) ≤ 0.999905254 := by
    constructor
    · rw [show (0.999905167 : ℝ) = Real.sqrt (0.999905167 ^ 2) from
        (Real.sqrt_sq (by norm_num)).symm]
      exact Real.sqrt_le_sqrt (by nlinarith [hA.2])
    · rw [show (0.999905254 : ℝ) = Real.sqrt (0.999905254 ^ 2) from
        (Real.sqrt_sq (by norm_num)).symm]
      exact Real.sqrt_le_sqrt (by nlinarith [hA.1])
  have hpos : (0 : ℝ) < Real.sqrt (1 - A) :=
    lt_of_lt_of_le (by norm_num) hsq1A.1
  rw [show atan2 (Real.sqrt A) (Real.sqrt (1 - A))
      = Real.arctan (Real.sqrt A / Real.sqrt (1 - A)) by
    unfold atan2
    rw [if_pos hpos]]
  have ht : (0.013766763 : ℝ) ≤ Real.sqrt A / Real.sqrt (1 - A) ∧
      Real.sqrt A / Real.sqrt (1 - A) ≤ 0.013772665 := by
    constructor
    · rw [le_div_iff₀ hpos]
      nlinarith [hsqA.1, hsq1A.2]
    · rw [div_le_iff₀ hpos]
      nlinarith [hsqA.2, hsq1A.1]
  have htpos : (0 : ℝ) < Real.sqrt A / Real.sqrt (1 - A) :=
    lt_of_lt_of_le (by norm_num) ht.1
  have hat_ub : Real.arctan (Real.sqrt A / Real.sqrt (1 - A)) < 0.013772665 :=
    lt_of_lt_of_le (arctan_lt_self htpos) ht.2
  have hat_lb : (0.013740 : ℝ) ≤ Real.arctan (Real.sqrt A / Real.sqrt (1 - A)) := by
    have hsth : Real.sin (0.013740 : ℝ)
        ≤ 0.013740 - 0.013740 ^ 3 / 6 + 0.013740 ^ 4 * (5 / 96) := by
      have hb := Real.sin_bound (show |(0.013740 : ℝ)| ≤ 1 by
        rw [abs_of_nonneg (by norm_num : (0 : ℝ) ≤ 0.013740)]; norm_num)
      rw [abs_of_nonneg (by norm_num : (0 : ℝ) ≤ 0.013740)] at hb
      linarith [(abs_le.mp hb).2]
    have hcth : 1 - (0.013740 : ℝ) ^ 2 / 2 - 0.013740 ^ 4 * (5 / 96)
        ≤ Real.cos 0.013740 := cos_poly_lb (by norm_num) (by norm_num)
    have hcpos : (0 : ℝ) < Real.cos 0.013740 :=
      lt_of_lt_of_le (by norm_num) hcth
    have htan : Real.tan (0.013740 : ℝ) < 0.013766763 := by
      rw [Real.tan_eq_sin_div_cos, div_lt_iff₀ hcpos]
      nlinarith [hsth, hcth]
    exact le_of_lt (lt_arctan_of_tan_lt 0.013740 _
      (by linarith [Real.pi_pos]) (by linarith)
      (lt_of_lt_of_le htan ht.1))
  have hX1 : (94.5 : ℝ)
      ≤ 6371e3 * (2 * Real.arctan (Real.sqrt A / Real.sqrt (1 - A))) * 54e-5 := by
    nlinarith [hat_lb]
  have hX2 : 6371e3 * (2 * Real.arctan (Real.sqrt A / Real.sqrt (1 - A))) * 54e-5
      < 95.5 := by
    nlinarith [hat_ub]
  unfold rustRound
  rw [if_neg (by push_neg; linarith)]
  have hfl : Int.floor (6371e3 *
      (2 * Real.arctan (Real.sqrt A / Real.sqrt (1 - A))) * 54e-5 + 1 / 2)
      = 95 := by
    rw [Int.floor_eq_iff]
    constructor
    · push_cast
      linarith
    · push_cast
      linarith
  rw [hfl]
  norm_num

/-- Rounding zero gives zero. -/
theorem rustRound_zero : rustRound 0 = 0 := by
  unfold rustRound
  rw [if_neg (lt_irrefl 0)]
  have h : Int.floor ((0 : ℝ) + 1 / 2) = 0 := by
    rw [Int.floor_eq_zero_iff]
    constructor <;> norm_num
  rw [h]
  norm_num

/-- The overflow threshold is at least one. -/
theorem one_le_MAXF : (1 : ℝ) ≤ MAXF := by
  unfold MAXF
  norm_num

/-- Values within the finite range do not overflow. -/
theorem clamp_of_abs_le {r : ℝ} (h : |r| ≤ MAXF) : clamp r = F64.finite r := by
  have h2 := abs_le.mp h
  unfold clamp
  rw [if_neg (not_lt.mpr h2.2), if_neg (not_lt.mpr h2.1)]

/-- Zero does not overflow. -/
theorem clamp_zero : clamp 0 = F64.finite 0 :=
  clamp_of_abs_le (by rw [abs_zero]; linarith [one_le_MAXF])

/-- The angle of the point (1, 0) is zero. -/
theorem atan2_zero_one : atan2 0 1 = 0 := by
  unfold atan2
  rw [if_pos (by norm_num : (0 : ℝ) < 1), zero_div, Real.arctan_zero]

/-- C5 counterexample: the claim fails as stated over the finite `f64`
inputs it quantifies over: at latitude `1e308` (a finite double) the
computation overflows — `lat * PI` is `+inf`, `cos(+inf)` is NaN — and
the NaN propagates to the result, which is therefore not 0. -/
theorem claim5_counterexample :
    haversineFp (.finite 1e308) (.finite 0) (.finite 1e308) (.finite 0)
      = F64.nan := by
  have hover : MAXF < 1e308 * Real.pi := by
    have h3 := Real.pi_gt_three
    unfold MAXF
    nlinarith
  have hmulinf : fpMul (F64.finite 1e308) (F64.finite Real.pi) = F64.inf := by
    simp only [fpMul]
    unfold clamp
    rw [if_pos hover]
  have hdivinf : fpDiv F64.inf (F64.finite 180) = F64.inf := by
    simp only [fpDiv]
    rw [if_pos (by norm_num : (0 : ℝ) ≤ 180)]
  have hsublat : fpSub (F64.finite 1e308) (F64.finite 1e308) = F64.finite 0 := by
    simp only [fpSub]
    rw [sub_self]
    exact clamp_zero
  have hsublon : fpSub (F64.finite 0) (F64.finite 0) = F64.finite 0 := by
    simp only [fpSub]
    rw [sub_self]
    exact clamp_zero
  have hmul0pi : fpMul (F64.finite 0) (F64.finite Real.pi) = F64.finite 0 := by
    simp only [fpMul]
    rw [zero_mul]
    exact clamp_zero
  have hdiv0180 : fpDiv (F64.finite 0) (F64.finite 180) = F64.finite 0 := by
    simp only [fpDiv]
    rw [if_neg (by norm_num : ¬(180 : ℝ) = 0), zero_div]
    exact clamp_zero
  have hdiv02 : fpDiv (F64.finite 0) (F64.finite 2) = F64.finite 0 := by
    simp only [fpDiv]
    rw [if_neg (by norm_num : ¬(2 : ℝ) = 0), zero_div]
    exact clamp_zero
  have hsin0 : fpSin (F64.finite 0) = F64.finite 0 := by
    simp only [fpSin]
    rw [Real.sin_zero]
  have hmul00 : fpMul (F64.finite 0) (F64.finite 0) = F64.finite 0 := by
    simp only [fpMul]
    rw [mul_zero]
    exact clamp_zero
  simp only [haversineFp]
  rw [hmulinf, hdivinf, hsublat, hsublon, hmul0pi, hdiv0180, hdiv02, hsin0,
    hmul00]
  rfl

/-- C5 (amended): the distance from any point to itself is zero for all
finite `f64` coordinates whose intermediate `lat * PI` stays within the
finite `f64` range (every geographic latitude qualifies; only latitudes
beyond about `5.72e307` overflow). -/
theorem claim5_haversine_identity_in_range :
    ∀ x y : ℝ, |x * Real.pi| ≤ MAXF →
      haversineFp (.finite x) (.finite y) (.finite x) (.finite y)
        = F64.finite 0 := by
  intro x y h
  have hmulxpi : fpMul (F64.finite x) (F64.finite Real.pi)
      = F64.finite (x * Real.pi) := by
    simp only [fpMul]
    exact clamp_of_abs_le h
  have hdivxpi : fpDiv (F64.finite (x * Real.pi)) (F64.finite 180)
      = F64.finite (x * Real.pi / 180) := by
    simp only [fpDiv]
    rw [if_neg (by norm_num : ¬(180 : ℝ) = 0)]
    refine clamp_of_abs_le ?_
    rw [abs_div, abs_of_nonneg (by norm_num : (0 : ℝ) ≤ 180),
      div_le_iff₀ (by norm_num : (0 : ℝ) < 180)]
    nlinarith [abs_nonneg (x * Real.pi), one_le_MAXF]
  have hsublat : fpSub (F64.finite x) (F64.finite x) = F64.finite 0 := by
    simp only [fpSub]
    rw [sub_self]
    exact clamp_zero
  have hsublon : fpSub (F64.finite y) (F64.finite y) = F64.finite 0 := by
    simp only [fpSub]
    rw [sub_self]
    exact clamp_zero
  have hmul0pi : fpMul (F64.finite 0) (F64.finite Real.pi) = F64.finite 0 := by
    simp only [fpMul]
    rw [zero_mul]
    exact clamp_zero
  have hdiv0180 : fpDiv (F64.finite 0) (F64.finite 180) = F64.finite 0 := by
    simp only [fpDiv]
    rw [if_neg (by norm_num : ¬(180 : ℝ) = 0), zero_div]
    exact clamp_zero
  have hdiv02 : fpDiv (F64.finite 0) (F64.finite 2) = F64.finite 0 := by
    simp only [fpDiv]
    rw [if_neg (by norm_num : ¬(2 : ℝ) = 0), zero_div]
    exact clamp_zero
  have hsin0 : fpSin (F64.finite 0) = F64.finite 0 := by
    simp only [fpSin]
    rw [Real.sin_zero]
  have hmul00 : fpMul (F64.finite 0) (F64.finite 0) = F64.finite 0 := by
    simp only [fpMul]
    rw [mul_zero]
    exact clamp_zero
  have hcos : fpCos (F64.finite (x * Real.pi / 180))
      = F64.finite (Real.cos (x * Real.pi / 180)) := by
    simp only [fpCos]
  have hcc : fpMul (F64.finite (Real.cos (x * Real.pi / 180)))
      (F64.finite (Real.cos (x * Real.pi / 180)))
      = F64.finite (Real.cos (x * Real.pi / 180) *
          Real.cos (x * Real.pi / 180)) := by
    simp only [fpMul]
    refine clamp_of_abs_le ?_
    rw [abs_mul]
    calc |Real.cos (x * Real.pi / 180)| * |Real.cos (x * Real.pi / 180)|
        ≤ 1 * 1 := by
          have := Real.abs_cos_le_one (x * Real.pi / 180)
          nlinarith [abs_nonneg (Real.cos (x * Real.pi / 180))]
      _ ≤ MAXF := by linarith [one_le_MAXF]
  have hcc0 : fpMul (F64.finite (Real.cos (x * Real.pi / 180) *
      Real.cos (x * Real.pi / 180))) (F64.finite 0) = F64.finite 0 := by
    simp only [fpMul]
    rw [mul_zero]
    exact clamp_zero
  have hadd00 : fpAdd (F64.finite 0) (F64.finite 0) = F64.finite 0 := by
    simp only [fpAdd]
    rw [add_zero]
    exact clamp_zero
  have hsqrt0 : fpSqrt (F64.finite 0) = F64.finite 0 := by
    simp only [fpSqrt]
    rw [if_neg (lt_irrefl 0), Real.sqrt_zero]
  have hsub10 : fpSub (F64.finite 1) (F64.finite 0) = F64.finite 1 := by
    simp only [fpSub]
    rw [sub_zero]
    exact clamp_of_abs_le (by rw [abs_one]; exact one_le_MAXF)
  have hsqrt1 : fpSqrt (F64.finite 1) = F64.finite 1 := by
    simp only [fpSqrt]
    rw [if_neg (by norm_num : ¬(1 : ℝ) < 0), Real.sqrt_one]
  have hatan : fpAtan2 (F64.finite 0) (F64.finite 1) = F64.finite 0 := by
    simp only [fpAtan2]
    rw [atan2_zero_one]
  have h2c : fpMul (F64.finite 2) (F64.finite 0) = F64.finite 0 := by
    simp only [fpMul]
    rw [mul_zero]
    exact clamp_zero
  have hrc : fpMul (F64.finite 6371e3) (F64.finite 0) = F64.finite 0 := by
    simp only [fpMul]
    rw [mul_zero]
    exact clamp_zero
  have hd54 : fpMul (F64.finite 0) (F64.finite 0.00054) = F64.finite 0 := by
    simp only [fpMul]
    rw [zero_mul]
    exact clamp_zero
  have hround : fpRound (F64.finite 0) = F64.finite 0 := by
    simp only [fpRound]
    rw [rustRound_zero]
  simp only [haversineFp]
  rw [hmulxpi, hdivxpi, hsublat, hsublon, hmul0pi, hdiv0180, hdiv02, hsin0,
    hcos, hcc, hcc0, hmul00, hadd00, hsqrt0, hsub10, hsqrt1, hatan, h2c, hrc,
    hd54, hround]

/-- C5 witness: the amended identity at a concrete in-range coordinate
pair. -/
theorem claim5_witness :
    haversineFp (.finite 32.7338) (.finite (-117.1933))
        (.finite 32.7338) (.finite (-117.1933))
      = F64.finite 0 :=
  claim5_haversine_identity_in_range 32.7338 (-117.1933) (by
    rw [abs_of_nonneg (by positivity : (0 : ℝ) ≤ 32.7338 * Real.pi)]
    have h4 := Real.pi_lt_four
    unfold MAXF
    nlinarith)

/-- C6: the distance function is symmetric in its two endpoints:
`haversine a b c d = haversine c d a b` for all real coordinates. -/
theorem claim6_haversine_symmetric :
    ∀ a b c d : ℝ, haversine a b c d = haversine c d a b := by
  intro a b c d
  have key : ∀ u v : ℝ,
      Real.sin ((v - u) * Real.pi / 180 / 2)
        = -Real.sin ((u - v) * Real.pi / 180 / 2) := by
    intro u v
    have h : (v - u) * Real.pi / 180 / 2 = -((u - v) * Real.pi / 180 / 2) := by
      ring
    rw [h, Real.sin_neg]
  have hA : Real.sin ((c - a) * Real.pi / 180 / 2) *
        Real.sin ((c - a) * Real.pi / 180 / 2) +
      Real.cos (a * Real.pi / 180) * Real.cos (c * Real.pi / 180) *
        Real.sin ((d - b) * Real.pi / 180 / 2) *
        Real.sin ((d - b) * Real.pi / 180 / 2)
      = Real.sin ((a - c) * Real.pi / 180 / 2) *
          Real.sin ((a - c) * Real.pi / 180 / 2) +
        Real.cos (c * Real.pi / 180) * Real.cos (a * Real.pi / 180) *
          Real.sin ((b - d) * Real.pi / 180 / 2) *
          Real.sin ((b - d) * Real.pi / 180 / 2) := by
    rw [key c a, key d b]
    ring
  simp only [haversine]
  rw [hA]

/-- C10: the live-client method and the REST free function for rating
times are equivalent: same URL, same status classification, same decode,
hence equal outcomes under any fixed transport behaviour. -/
theorem claim10_ratings_times_equivalent :
    ∀ (β : Type) (cid : Nat) (transport : String → HttpOutcome β)
      (decode : β → Option RatingsTimeData),
      LiveApi.get_ratings_times cid transport decode
        = RestApi.get_ratings_times cid transport decode := by
  intro β cid transport decode
  rfl

end VatsimUtils
